import Mathlib

/-!
Verification of the burnchain synchronization orchestrator of
`stacks-core` (`stackslib/src/burnchains`): the error taxonomy, the
thread-join adapter, the error-precedence resolution, the
download → parse → commit pipeline, the `SyncRange` computation, and the
mock pipeline stages of `burnchains/tests/mock_indexer.rs`.

The repository snapshot ships the test files
(`tests/sync_with_indexer.rs`, `tests/thread_join.rs`,
`tests/test_doubles.rs`, `tests/mock_indexer.rs`); the orchestrator
`Burnchain::sync_with_indexer` and the adapter
`Burnchain::handle_thread_join` themselves are exercised by those tests
but their bodies are not part of the snapshot, so they are modelled here
from the specification (each such definition is marked
`Modelled from the spec:`).  The mock pipeline stages
(`MockDownloader::download_blocks`, `MockBlockParser::parse_blocks`) are
embedded directly from `mock_indexer.rs`.
-/

/-- Payload of a download-class error, from
`crate::burnchains::bitcoin::Error`; the tests use only
`ConnectionError`. -/
inductive bitcoin_error where
  | ConnectionError
  deriving DecidableEq, Repr

/-- The burnchain error taxonomy (`crate::burnchains::Error`), restricted
to the kinds the synchronization pipeline produces: download-class,
parse-class, thread-channel, DB/commit-class, and the terminal
coordinator-closed condition. -/
inductive burnchain_error where
  | DownloadError (e : bitcoin_error)
  | ParseError
  | ThreadChannelError
  | DBError
  | CoordinatorClosed
  deriving DecidableEq, Repr

deriving instance DecidableEq for Except

/-- How a worker thread can terminate, as observed at the join point: it
either finished normally with a `Result`, or it panicked (abnormal
termination, no return value observed). -/
inductive ThreadOutcome (α : Type) where
  | finished (r : Except burnchain_error α)
  | panicked

/-- Modelled from the spec: §4.2 Thread-Join Adapter,
`Burnchain::handle_thread_join` (its body is not in the snapshot; its
tests are in `tests/thread_join.rs`).  A thread that returned `Ok(v)`
yields `Ok(v)`, a thread that returned `Err(e)` yields that same `e`,
and a panicked thread yields `Err(ThreadChannelError)`. -/
def handle_thread_join {α : Type} (o : ThreadOutcome α) : Except burnchain_error α :=
  match o with
  | .finished r => r
  | .panicked => .error .ThreadChannelError

/-- Modelled from the spec: §4.3 fixed error precedence, highest first:
download-class, then parse-class, then thread-channel, then DB/commit
class (smaller rank = higher precedence).  `CoordinatorClosed` is not
ranked by §4.3; it is placed last. -/
def errorRank : burnchain_error → Nat
  | .DownloadError _ => 0
  | .ParseError => 1
  | .ThreadChannelError => 2
  | .DBError => 3
  | .CoordinatorClosed => 4

/-- The errors among the three joined stage results (download, parse,
commit), in stage order. -/
def stage_errors (dl ps cm : Except burnchain_error Unit) : List burnchain_error :=
  (match dl with | .error e => [e] | .ok _ => []) ++
    (match ps with | .error e => [e] | .ok _ => []) ++
      (match cm with | .error e => [e] | .ok _ => [])

/-- The error of higher precedence between a candidate and an optional
previously selected error, preferring the candidate on ties. -/
def pickBetter (e : burnchain_error) : Option burnchain_error → burnchain_error
  | none => e
  | some e2 => if errorRank e ≤ errorRank e2 then e else e2

/-- Pick the error of least rank (highest precedence) from a list,
preferring the earlier stage on ties. -/
def pickMin : List burnchain_error → Option burnchain_error
  | [] => none
  | e :: es => some (pickBetter e (pickMin es))

/-- Modelled from the spec: §4.3 outcome resolution of
`Burnchain::sync_with_indexer` (its body is not in the snapshot; its
tests are in `tests/sync_with_indexer.rs`).  Given the three joined
stage results, exactly one error is surfaced, chosen by the fixed
precedence `errorRank`; if no stage failed the round is a success. -/
def resolve_outcome (dl ps cm : Except burnchain_error Unit) : Except burnchain_error Unit :=
  match pickMin (stage_errors dl ps cm) with
  | none => .ok ()
  | some e => .error e

/-- Modelled from the spec: §4.1 step 6 followed by step 7 — the
orchestrator joins the three worker threads through the thread-join
adapter (panics become `ThreadChannelError`) and resolves the outcome by
precedence. -/
def join_and_resolve (o1 o2 o3 : ThreadOutcome Unit) : Except burnchain_error Unit :=
  resolve_outcome (handle_thread_join o1) (handle_thread_join o2) (handle_thread_join o3)

/-- A burnchain block header (`BurnchainBlockHeader` of
`stackslib/src/burnchains`): height, hash, parent hash, transaction
count, timestamp.  Hashes are modelled as natural numbers; the stub
blocks of `test_doubles.rs` use the height as hash material and height−1
as parent-hash material (height 0 has the zero parent hash). -/
structure BurnchainBlockHeader where
  block_height : Nat
  block_hash : Nat
  parent_block_hash : Nat
  num_txs : Nat
  timestamp : Nat
  deriving DecidableEq, Repr

/-- A raw fetched block before parsing (`BlockIPC` of §3): the IPC header
plus an opaque payload. -/
structure BlockIPC where
  header : BurnchainBlockHeader
  data : List Nat
  deriving DecidableEq, Repr

/-- A decoded block produced by the parse stage, consumed by the commit
stage (`ParsedBlock` of §3). -/
structure ParsedBlock where
  header : BurnchainBlockHeader
  deriving DecidableEq, Repr

/-- The collaborators of one synchronization round, after the header-sync
and reorg steps have fixed the header store (§4.4): the first block
height, the newly synced header height, the header at each height, and
the three fallible stage operations. -/
structure SyncIndexer where
  first_block_height : Nat
  highest_header : Nat
  headerAt : Nat → BurnchainBlockHeader
  download : BurnchainBlockHeader → Except burnchain_error BlockIPC
  parse : BlockIPC → Except burnchain_error ParsedBlock
  process_block : ParsedBlock → Except burnchain_error Unit

/-- The orchestrator's durable state across rounds: the next height to
commit (one above the highest committed block, `first_block_height` when
nothing has been committed) and the current canonical tip. -/
structure SyncState where
  committed_height : Nat
  tip : BurnchainBlockHeader
  deriving DecidableEq, Repr

/-- What one round did, beyond its returned value: the heights at which
`process_block` was invoked, in invocation order, and whether the
pipeline was launched at all. -/
structure SyncLog where
  committed : List Nat
  launched : Bool
  result : Except burnchain_error BurnchainBlockHeader
  deriving DecidableEq

/-- Modelled from the spec: §3 SyncRange — `start_height` is the maximum
of the locally committed height and the first block height; `end_height`
is the minimum of the newly synced header height, the target height
(when given) and `start + max_blocks` (when given). -/
def sync_range (committed first highest : Nat) (target max_blocks : Option Nat) : Nat × Nat :=
  let s := max committed first
  let e1 := match target with
    | some t => min highest t
    | none => highest
  let e := match max_blocks with
    | some m => min e1 (s + m)
    | none => e1
  (s, e)

/-- Modelled from the spec: §4.1 step 5 — the download → parse → commit
pipeline over the headers of the round's range, in ascending height
order.  Each block is downloaded, parsed and committed strictly in
order; the first stage error stops the round, and every block committed
before the failure stays committed.  Returns the heights committed, in
order, and the round's stage outcome. -/
def run_pipeline (ix : SyncIndexer) : List Nat → List Nat × Except burnchain_error Unit
  | [] => ([], .ok ())
  | h :: rest =>
    match ix.download (ix.headerAt h) with
    | .error e => ([], .error e)
    | .ok b =>
      match ix.parse b with
      | .error e => ([], .error e)
      | .ok p =>
        match ix.process_block p with
        | .error e => ([], .error e)
        | .ok _ => (h :: (run_pipeline ix rest).1, (run_pipeline ix rest).2)

/-- Modelled from the spec: §4.1 `Burnchain::sync_with_indexer` after the
header-sync and reorg steps (its body is not in the snapshot; its tests
are in `tests/sync_with_indexer.rs`).  Compute the round's `SyncRange`;
if it is empty, return the current tip unchanged without launching the
pipeline; otherwise run the pipeline over the range and, on success,
return the header of the highest committed block; on failure the
committed prefix is retained, not rolled back. -/
def sync_with_indexer (ix : SyncIndexer) (st : SyncState) (target max_blocks : Option Nat) :
    SyncState × SyncLog :=
  let r := sync_range st.committed_height ix.first_block_height ix.highest_header
    target max_blocks
  if r.2 < r.1 then
    (st, ⟨[], false, .ok st.tip⟩)
  else
    let run := run_pipeline ix (List.range' r.1 (r.2 + 1 - r.1))
    match run.2 with
    | .ok _ => (⟨r.2 + 1, ix.headerAt r.2⟩, ⟨run.1, true, .ok (ix.headerAt r.2)⟩)
    | .error err =>
      let st' : SyncState :=
        if run.1 = [] then st
        else ⟨r.1 + run.1.length, ix.headerAt (r.1 + run.1.length - 1)⟩
      (st', ⟨run.1, true, .error err⟩)

/-- The stub header of `StubBlock::to_header` in `test_doubles.rs`:
height h, hash h, parent hash h − 1 (zero at height 0), no transactions,
timestamp 0. -/
def stubHeader (h : Nat) : BurnchainBlockHeader :=
  ⟨h, h, h - 1, 0, 0⟩

/-- The indexer arrangement of `test_sync_with_indexer_happy_path`:
first block height 0, headers synced for heights 0, 1, 2, and download,
parse and commit operations that never fail. -/
def happyIndexer : SyncIndexer where
  first_block_height := 0
  highest_header := 2
  headerAt := stubHeader
  download := fun hd => .ok ⟨hd, []⟩
  parse := fun b => .ok ⟨b.header⟩
  process_block := fun _ => .ok ()

/-- The indexer arrangement of `test_sync_with_indexer_download_failure`:
as `happyIndexer`, but the download of the block at height 2 fails with
a connection error. -/
def downloadFailIndexer : SyncIndexer where
  first_block_height := 0
  highest_header := 2
  headerAt := stubHeader
  download := fun hd =>
    if hd.block_height = 2 then .error (.DownloadError .ConnectionError) else .ok ⟨hd, []⟩
  parse := fun b => .ok ⟨b.header⟩
  process_block := fun _ => .ok ()

/-- The initial orchestrator state of `Burnchain::default_unittest(0, zero)`:
nothing committed yet, tip at the first block's header. -/
def initialState : SyncState :=
  ⟨0, stubHeader 0⟩

namespace MockIdx

/-- The error enum of the self-contained mock universe in
`tests/mock_indexer.rs`: its `DownloadError` carries no payload; only
the kinds that file mentions are modelled. -/
inductive burnchain_error where
  | DownloadError
  | ThreadChannelError
  | CoordinatorClosed
  deriving DecidableEq, Repr

/-- A mock block (`MockBlock` in `mock_indexer.rs`): height, hash and
parent hash, hash material modelled as a natural number. -/
structure MockBlock where
  height : Nat
  hash : Nat
  parent_hash : Nat
  deriving DecidableEq, Repr

/-- `MockBlock::new`: blocks at height 0 have the zero parent hash,
others take the parent hash from height − 1. -/
def MockBlock.new (height hash : Nat) : MockBlock :=
  ⟨height, hash, if height = 0 then 0 else height - 1⟩

/-- `MockBlock::to_header`: height, hash, parent hash, no transactions,
timestamp 0. -/
def MockBlock.to_header (b : MockBlock) : BurnchainBlockHeader :=
  ⟨b.height, b.hash, b.parent_hash, 0, 0⟩

/-- The mock universe's block (`BurnchainBlock` in `mock_indexer.rs`):
a header and a transaction list. -/
structure BurnchainBlock where
  header : BurnchainBlockHeader
  txs : List Nat
  deriving DecidableEq, Repr

/-- `MockBlock::to_block`: the header with an empty transaction list. -/
def MockBlock.to_block (b : MockBlock) : BurnchainBlock :=
  ⟨b.to_header, []⟩

/-- The header IPC record moving between stages
(`BurnchainHeaderIPC`). -/
structure BurnchainHeaderIPC where
  block_header : BurnchainBlockHeader
  deriving DecidableEq, Repr

/-- The block IPC record sent from the download stage to the parse stage
(`BurnchainBlockIPC`): the fetched block plus its header. -/
structure BurnchainBlockIPC where
  block : BurnchainBlock
  block_header : BurnchainBlockHeader
  deriving DecidableEq, Repr

/-- What the parse stage sends to the commit stage
(`BurnchainBlockData`): a header and the derived operations. -/
structure BurnchainBlockData where
  header : BurnchainBlockHeader
  ops : List Nat
  deriving DecidableEq, Repr

/-- One observation of a blocking channel receive: a value
(`Ok(Some v)`), the end-of-stream marker (`Ok(None)`), or a closed
channel (`Err(RecvError)`). -/
inductive RecvEvent (α : Type) where
  | msg (a : α)
  | eos
  | closed
  deriving DecidableEq, Repr

/-- `MockDownloader::download_blocks` (`mock_indexer.rs`): loop over
inbound header IPC records; at the configured failure height return
`DownloadError`; for a header whose block is known, send the block IPC
downstream (a failed send returns `CoordinatorClosed`); for a header
with no known block, send nothing and continue; on the `None` end
marker, forward it and return `Ok(())`; on a closed inbound channel
return `CoordinatorClosed`.  The inbound channel is the list of receive
observations; `sendOk i` tells whether the i-th outbound send succeeds
(the peer end may have been dropped); the second component is `none`
when the trace ends with the stage still blocked on a receive.  Returns
the values sent downstream and the stage result. -/
def download_blocks (blocks : Nat → Option MockBlock) (fail_height : Option Nat)
    (sendOk : Nat → Bool) :
    List (RecvEvent BurnchainHeaderIPC) → Nat →
      List (Option BurnchainBlockIPC) × Option (Except burnchain_error Unit)
  | [], _ => ([], none)
  | .closed :: _, _ => ([], some (.error .CoordinatorClosed))
  | .eos :: _, k =>
    if sendOk k then ([none], some (.ok ()))
    else ([], some (.error .CoordinatorClosed))
  | .msg hipc :: rest, k =>
    if fail_height = some hipc.block_header.block_height then
      ([], some (.error .DownloadError))
    else
      match blocks hipc.block_header.block_height with
      | some b =>
        if sendOk k then
          (some ⟨b.to_block, hipc.block_header⟩ ::
              (download_blocks blocks fail_height sendOk rest (k + 1)).1,
            (download_blocks blocks fail_height sendOk rest (k + 1)).2)
        else ([], some (.error .CoordinatorClosed))
      | none => download_blocks blocks fail_height sendOk rest k

/-- `MockBlockParser::parse_blocks` (`mock_indexer.rs`): loop over
inbound block IPC records; convert each to block data (a pass-through
keeping the header, with no operations) and send it downstream (a failed
send returns `CoordinatorClosed`); on the `None` end marker, forward it
and return `Ok(())`; on a closed inbound channel return
`CoordinatorClosed`.  Channels are modelled as in `download_blocks`. -/
def parse_blocks (sendOk : Nat → Bool) :
    List (RecvEvent BurnchainBlockIPC) → Nat →
      List (Option BurnchainBlockData) × Option (Except burnchain_error Unit)
  | [], _ => ([], none)
  | .closed :: _, _ => ([], some (.error .CoordinatorClosed))
  | .eos :: _, k =>
    if sendOk k then ([none], some (.ok ()))
    else ([], some (.error .CoordinatorClosed))
  | .msg bipc :: rest, k =>
    if sendOk k then
      (some ⟨bipc.block_header, []⟩ :: (parse_blocks sendOk rest (k + 1)).1,
        (parse_blocks sendOk rest (k + 1)).2)
    else ([], some (.error .CoordinatorClosed))

/-- Blocks at heights 0 and 2 only — height 1 has no block in the map. -/
def gapBlocks : Nat → Option MockBlock
  | 0 => some (MockBlock.new 0 0)
  | 2 => some (MockBlock.new 2 2)
  | _ => none

/-- An inbound trace with headers at heights 0, 1 and 2 followed by the
end-of-stream marker. -/
def gapTrace : List (RecvEvent BurnchainHeaderIPC) :=
  [.msg ⟨(MockBlock.new 0 0).to_header⟩, .msg ⟨⟨1, 1, 0, 0, 0⟩⟩,
    .msg ⟨(MockBlock.new 2 2).to_header⟩, .eos]

end MockIdx

theorem pickMin_eq_none (es : List burnchain_error) : pickMin es = none ↔ es = [] := by
  cases es with
  | nil => simp [pickMin]
  | cons a as => simp [pickMin]

theorem pickMin_mem_and_min :
    ∀ (es : List burnchain_error) (e : burnchain_error), pickMin es = some e →
      e ∈ es ∧ ∀ e' ∈ es, errorRank e ≤ errorRank e' := by
  intro es
  induction es with
  | nil => intro e h; simp [pickMin] at h
  | cons a es ih =>
    intro e h
    have he : e = pickBetter a (pickMin es) := by
      have := h
      simp only [pickMin, Option.some.injEq] at this
      exact this.symm
    cases hrec : pickMin es with
    | none =>
      have hes : es = [] := (pickMin_eq_none es).mp hrec
      subst hes
      rw [hrec] at he
      simp only [pickBetter] at he
      subst he
      exact ⟨List.mem_cons_self _ _, by intro e' he'; simp at he'; rw [he']⟩
    | some e2 =>
      rw [hrec] at he
      obtain ⟨hmem, hmin⟩ := ih e2 hrec
      simp only [pickBetter] at he
      by_cases hle : errorRank a ≤ errorRank e2
      · rw [if_pos hle] at he
        subst he
        refine ⟨List.mem_cons_self _ _, ?_⟩
        intro e' he'
        rcases List.mem_cons.mp he' with h1 | h2
        · rw [h1]
        · exact le_trans hle (hmin e' h2)
      · rw [if_neg hle] at he
        subst he
        refine ⟨List.mem_cons_of_mem _ hmem, ?_⟩
        intro e' he'
        rcases List.mem_cons.mp he' with h1 | h2
        · rw [h1]; exact le_of_not_le hle
        · exact hmin e' h2

theorem pickMin_ne_none (e : burnchain_error) (es : List burnchain_error) :
    pickMin (e :: es) ≠ none := by
  simp [pickMin]

/-- **C1.** For any round in which at least one of the download, parse,
or commit stages fails, the resolved outcome is exactly one error whose
kind is the highest-precedence failing kind under the order
download-class > parse-class > thread-channel > DB/commit-class; in
particular, when only the commit stage fails the surfaced error is the
DB-class error. -/
theorem sync_error_precedence (dl ps cm : Except burnchain_error Unit)
    (h : stage_errors dl ps cm ≠ []) :
    (∃ e, resolve_outcome dl ps cm = .error e ∧ e ∈ stage_errors dl ps cm ∧
      ∀ e' ∈ stage_errors dl ps cm, errorRank e ≤ errorRank e') ∧
    (dl = .ok () → ps = .ok () → cm = .error .DBError →
      resolve_outcome dl ps cm = .error .DBError) := by
  constructor
  · cases hp : pickMin (stage_errors dl ps cm) with
    | none =>
      exfalso
      cases hs : stage_errors dl ps cm with
      | nil => exact h hs
      | cons a as => rw [hs] at hp; exact pickMin_ne_none a as hp
    | some e =>
      obtain ⟨hmem, hmin⟩ := pickMin_mem_and_min _ e hp
      exact ⟨e, by simp [resolve_outcome, hp], hmem, hmin⟩
  · intro h1 h2 h3
    subst h1; subst h2; subst h3
    rfl

/-- Witness for `sync_error_precedence` at a concrete round in which the
download and parse stages fail and the commit stage succeeds. -/
theorem sync_error_precedence_witness :
    stage_errors (.error (.DownloadError .ConnectionError)) (.error .ParseError) (.ok ()) ≠ [] ∧
    ((∃ e, resolve_outcome (.error (.DownloadError .ConnectionError)) (.error .ParseError)
          (.ok ()) = .error e ∧
        e ∈ stage_errors (.error (.DownloadError .ConnectionError)) (.error .ParseError)
          (.ok ()) ∧
        ∀ e' ∈ stage_errors (.error (.DownloadError .ConnectionError)) (.error .ParseError)
          (.ok ()), errorRank e ≤ errorRank e') ∧
      ((Except.error (burnchain_error.DownloadError .ConnectionError) : Except burnchain_error
          Unit) = .ok () → (Except.error burnchain_error.ParseError : Except burnchain_error
          Unit) = .ok () → (Except.ok () : Except burnchain_error Unit) = .error .DBError →
        resolve_outcome (.error (.DownloadError .ConnectionError)) (.error .ParseError)
          (.ok ()) = .error .DBError)) :=
  ⟨by decide, sync_error_precedence _ _ _ (by decide)⟩

/-- **C4.** The thread-join adapter is the identity on the worker's
`Result`: a thread returning `Ok(v)` yields `Ok(v)` (the model abstracts
time, so a delayed finish joins the same way), a thread returning
`Err(e)` yields the same `e` unchanged, and a panicked thread yields
`Err(ThreadChannelError)`. -/
theorem handle_thread_join_roundtrip :
    (∀ (v : Nat), handle_thread_join (.finished (.ok v)) = .ok v) ∧
    (∀ (r : Except burnchain_error Nat), handle_thread_join (.finished r) = r) ∧
    (∀ (e : burnchain_error),
      handle_thread_join (α := Nat) (.finished (.error e)) = .error e) ∧
    handle_thread_join (α := Nat) .panicked = .error .ThreadChannelError :=
  ⟨fun _ => rfl, fun _ => rfl, fun _ => rfl, rfl⟩

/-- **C2.** The happy-path scenario: three headers at heights 0, 1, 2,
no injected failures, `target_height = Some(2)`, `max_blocks = None` —
the round returns `Ok(header)` with `header.block_height == 2` and
`process_block` is invoked exactly three times, at heights 0, 1, 2 in
ascending order. -/
theorem sync_happy_path :
    (sync_with_indexer happyIndexer initialState (some 2) none).2.result =
      .ok (stubHeader 2) ∧
    (stubHeader 2).block_height = 2 ∧
    (sync_with_indexer happyIndexer initialState (some 2) none).2.committed = [0, 1, 2] :=
  ⟨rfl, rfl, rfl⟩

/-- **C3.** With headers at heights 0, 1, 2 and a download failure
injected at height 2, the round returns a download-class error, the
commit stage has processed exactly heights 0 and 1 (so at most 0 and 1),
and the committed prefix is retained: the durable state after the round
records heights 0 and 1 as committed (committed height 2 = next height
to commit), with the tip at height 1. -/
theorem sync_download_failure :
    (sync_with_indexer downloadFailIndexer initialState (some 2) none).2.result =
      .error (.DownloadError .ConnectionError) ∧
    (sync_with_indexer downloadFailIndexer initialState (some 2) none).2.committed = [0, 1] ∧
    (sync_with_indexer downloadFailIndexer initialState (some 2) none).1 =
      ⟨2, stubHeader 1⟩ :=
  ⟨rfl, rfl, rfl⟩

theorem run_pipeline_ok (ix : SyncIndexer) :
    ∀ hs : List Nat, (run_pipeline ix hs).2 = .ok () → (run_pipeline ix hs).1 = hs := by
  intro hs
  induction hs with
  | nil => intro _; rfl
  | cons h rest ih =>
    intro hok
    simp only [run_pipeline] at hok ⊢
    cases hd : ix.download (ix.headerAt h) with
    | error e => simp [hd] at hok
    | ok b =>
      simp only [hd] at hok ⊢
      cases hp : ix.parse b with
      | error e => simp [hp] at hok
      | ok p =>
        simp only [hp] at hok ⊢
        cases hc : ix.process_block p with
        | error e => simp [hc] at hok
        | ok u =>
          simp only [hc] at hok ⊢
          simp only [List.cons.injEq, true_and]
          exact ih hok

/-- **C6.** For every round that launched the pipeline over the range
[s, e] and succeeded, `process_block` is invoked exactly once per height
of the range, in strictly increasing height order, with no gaps and no
repeats: the commit log is exactly `[s, s+1, …, e]`. -/
theorem sync_commit_ordering (ix : SyncIndexer) (st : SyncState) (target mb : Option Nat)
    (tip : BurnchainBlockHeader) (s e : Nat)
    (hs : s = (sync_range st.committed_height ix.first_block_height ix.highest_header
      target mb).1)
    (he : e = (sync_range st.committed_height ix.first_block_height ix.highest_header
      target mb).2)
    (hres : (sync_with_indexer ix st target mb).2.result = .ok tip)
    (hlaunch : (sync_with_indexer ix st target mb).2.launched = true) :
    (sync_with_indexer ix st target mb).2.committed = List.range' s (e + 1 - s) ∧
    List.Pairwise (· < ·) (sync_with_indexer ix st target mb).2.committed ∧
    (∀ x, x ∈ (sync_with_indexer ix st target mb).2.committed ↔ s ≤ x ∧ x ≤ e) := by
  simp only [sync_with_indexer, ← hs, ← he] at hres hlaunch ⊢
  by_cases hlt : e < s
  · rw [if_pos hlt] at hlaunch
    simp at hlaunch
  · rw [if_neg hlt] at hres hlaunch ⊢
    cases hrp : (run_pipeline ix (List.range' s (e + 1 - s))).2 with
    | error err =>
      rw [hrp] at hres
      exact Except.noConfusion hres
    | ok u =>
      cases u
      have hcs := run_pipeline_ok ix (List.range' s (e + 1 - s)) hrp
      refine ⟨?_, ?_, ?_⟩
      · show (run_pipeline ix (List.range' s (e + 1 - s))).1 = List.range' s (e + 1 - s)
        exact hcs
      · show List.Pairwise (· < ·) (run_pipeline ix (List.range' s (e + 1 - s))).1
        rw [hcs]
        exact List.pairwise_lt_range' s (e + 1 - s)
      · intro x
        show x ∈ (run_pipeline ix (List.range' s (e + 1 - s))).1 ↔ s ≤ x ∧ x ≤ e
        rw [hcs, List.mem_range'_1]
        omega

/-- Witness for `sync_commit_ordering` at the happy-path round over
heights 0 to 2. -/
theorem sync_commit_ordering_witness :
    (sync_with_indexer happyIndexer initialState (some 2) none).2.result =
      .ok (stubHeader 2) ∧
    (sync_with_indexer happyIndexer initialState (some 2) none).2.launched = true ∧
    ((sync_with_indexer happyIndexer initialState (some 2) none).2.committed =
        List.range' 0 (2 + 1 - 0) ∧
      List.Pairwise (· < ·)
        (sync_with_indexer happyIndexer initialState (some 2) none).2.committed ∧
      (∀ x, x ∈ (sync_with_indexer happyIndexer initialState (some 2) none).2.committed ↔
        0 ≤ x ∧ x ≤ 2)) :=
  ⟨rfl, rfl, sync_commit_ordering happyIndexer initialState (some 2) none (stubHeader 2) 0 2
    rfl rfl rfl rfl⟩

/-- **C7.** Calling the orchestrator a second time with the same target
height, after a first call has already reached that height, returns `Ok`
with the tip unchanged from the first call and launches no pipeline:
the empty SyncRange short-circuits to success. -/
theorem sync_idempotent_empty_range (ix : SyncIndexer) (st0 : SyncState) (t : Nat)
    (mb mb2 : Option Nat) (tip1 : BurnchainBlockHeader)
    (hres : (sync_with_indexer ix st0 (some t) mb).2.result = .ok tip1)
    (hreached : (sync_with_indexer ix st0 (some t) mb).1.committed_height = t + 1) :
    sync_with_indexer ix (sync_with_indexer ix st0 (some t) mb).1 (some t) mb2 =
      ((sync_with_indexer ix st0 (some t) mb).1, ⟨[], false, .ok tip1⟩) ∧
    (sync_with_indexer ix st0 (some t) mb).1.tip = tip1 := by
  have htip : (sync_with_indexer ix st0 (some t) mb).1.tip = tip1 := by
    simp only [sync_with_indexer] at hres ⊢
    by_cases hlt : (sync_range st0.committed_height ix.first_block_height ix.highest_header
        (some t) mb).2 < (sync_range st0.committed_height ix.first_block_height
        ix.highest_header (some t) mb).1
    · rw [if_pos hlt] at hres ⊢
      exact Except.ok.inj hres
    · rw [if_neg hlt] at hres ⊢
      cases hrp : (run_pipeline ix (List.range'
          (sync_range st0.committed_height ix.first_block_height ix.highest_header
            (some t) mb).1
          ((sync_range st0.committed_height ix.first_block_height ix.highest_header
              (some t) mb).2 + 1 -
            (sync_range st0.committed_height ix.first_block_height ix.highest_header
              (some t) mb).1))).2 with
      | error err =>
        rw [hrp] at hres
        exact Except.noConfusion hres
      | ok u =>
        rw [hrp] at hres
        exact Except.ok.inj hres
  set st1 := (sync_with_indexer ix st0 (some t) mb).1 with hst1
  have hempty : (sync_range st1.committed_height ix.first_block_height ix.highest_header
      (some t) mb2).2 < (sync_range st1.committed_height ix.first_block_height
      ix.highest_header (some t) mb2).1 := by
    rw [hreached]
    cases mb2 <;> simp only [sync_range] <;> omega
  refine ⟨?_, htip⟩
  show sync_with_indexer ix st1 (some t) mb2 = (st1, ⟨[], false, .ok tip1⟩)
  simp only [sync_with_indexer]
  rw [if_pos hempty, htip]

/-- Witness for `sync_idempotent_empty_range`: after the happy-path
round reaches height 2, a second call with target 2 leaves the state
untouched and launches no pipeline. -/
theorem sync_idempotent_empty_range_witness :
    (sync_with_indexer happyIndexer initialState (some 2) none).2.result =
      .ok (stubHeader 2) ∧
    (sync_with_indexer happyIndexer initialState (some 2) none).1.committed_height = 2 + 1 ∧
    (sync_with_indexer happyIndexer
        (sync_with_indexer happyIndexer initialState (some 2) none).1 (some 2) (some 7) =
      ((sync_with_indexer happyIndexer initialState (some 2) none).1,
        ⟨[], false, .ok (stubHeader 2)⟩) ∧
      (sync_with_indexer happyIndexer initialState (some 2) none).1.tip = stubHeader 2) :=
  ⟨rfl, rfl, sync_idempotent_empty_range happyIndexer initialState 2 none (some 7)
    (stubHeader 2) rfl rfl⟩

/-- **C8 (counterexample).** The claimed invariant start ≤ end + 1 does
not hold for every round on the SyncRange formula itself: when the
target height lies below the locally committed height — committed
height 10, first block height 0, synced header height 3, target 3 — the
computed range is (10, 3), and 10 > 3 + 1. -/
theorem sync_range_invariant_counterexample :
    sync_range 10 0 3 (some 3) none = (10, 3) ∧
    ¬((sync_range 10 0 3 (some 3) none).1 ≤ (sync_range 10 0 3 (some 3) none).2 + 1) :=
  ⟨rfl, by decide⟩

/-- **C8 (amended).** Each round's SyncRange is computed as
(max(locally committed height, first block height),
min(newly synced header height, target, start + max_blocks)), and the
invariant start_height ≤ end_height + 1 holds in every round whose
newly synced header height and target height are not below
start_height − 1 (in particular whenever the target is not below the
already-committed height); an empty range (end = start − 1) is a valid
outcome. -/
theorem sync_range_invariant (c f hh : Nat) (target mb : Option Nat)
    (h1 : max c f ≤ hh + 1)
    (h2 : ∀ t, target = some t → max c f ≤ t + 1) :
    (sync_range c f hh target mb).1 ≤ (sync_range c f hh target mb).2 + 1 := by
  cases target with
  | none => cases mb <;> simp only [sync_range] <;> omega
  | some t =>
    have := h2 t rfl
    cases mb <;> simp only [sync_range] <;> omega

/-- Witness for `sync_range_invariant` at the happy-path round's
parameters. -/
theorem sync_range_invariant_witness :
    max 0 0 ≤ 2 + 1 ∧ (∀ t, (some 2 : Option Nat) = some t → max 0 0 ≤ t + 1) ∧
    (sync_range 0 0 2 (some 2) none).1 ≤ (sync_range 0 0 2 (some 2) none).2 + 1 :=
  ⟨by decide, fun t ht => by have := Option.some.inj ht; omega,
    sync_range_invariant 0 0 2 (some 2) none (by decide)
      (fun t ht => by have := Option.some.inj ht; omega)⟩

/-- **C5 (counterexample).** The claim fails as universally quantified
over executions: in a round where the download stage failed with a
download-class error and the parse worker panicked, the precedence rule
surfaces the download error, not `ThreadChannelError`. -/
theorem panic_not_always_thread_error :
    join_and_resolve (.finished (.error (.DownloadError .ConnectionError))) .panicked
        (.finished (.ok ())) = .error (.DownloadError .ConnectionError) ∧
    join_and_resolve (.finished (.error (.DownloadError .ConnectionError))) .panicked
        (.finished (.ok ())) ≠ .error .ThreadChannelError :=
  ⟨rfl, by decide⟩

/-- **C5 (amended).** If a worker thread of the pipeline panics, the
orchestrator never re-raises the panic and neither crashes nor hangs on
the join: the round always resolves to a returned error, and whenever no
download-class or parse-class stage error occurs in the same round that
error is exactly `Err(ThreadChannelError)`. -/
theorem panic_containment (o1 o2 o3 : ThreadOutcome Unit)
    (hp : o1 = .panicked ∨ o2 = .panicked ∨ o3 = .panicked)
    (hno : ∀ e ∈ stage_errors (handle_thread_join o1) (handle_thread_join o2)
      (handle_thread_join o3), 2 ≤ errorRank e) :
    join_and_resolve o1 o2 o3 = .error .ThreadChannelError := by
  have htce : burnchain_error.ThreadChannelError ∈
      stage_errors (handle_thread_join o1) (handle_thread_join o2)
        (handle_thread_join o3) := by
    rcases hp with h | h | h <;> subst h <;>
      simp [stage_errors, handle_thread_join, List.mem_append]
  cases hpick : pickMin (stage_errors (handle_thread_join o1) (handle_thread_join o2)
      (handle_thread_join o3)) with
  | none =>
    exfalso
    rw [pickMin_eq_none] at hpick
    rw [hpick] at htce
    simp at htce
  | some e =>
    obtain ⟨hmem, hmin⟩ := pickMin_mem_and_min _ e hpick
    have hle : errorRank e ≤ 2 := hmin _ htce
    have hge : 2 ≤ errorRank e := hno e hmem
    have heq : errorRank e = 2 := le_antisymm hle hge
    have hetce : e = .ThreadChannelError := by
      cases e with
      | DownloadError e2 => simp [errorRank] at heq
      | ParseError => simp [errorRank] at heq
      | ThreadChannelError => rfl
      | DBError => simp [errorRank] at heq
      | CoordinatorClosed => simp [errorRank] at heq
    subst hetce
    simp [join_and_resolve, resolve_outcome, hpick]

/-- Witness for `panic_containment`: the parse worker panics while the
commit stage fails with a DB-class error; the round resolves to
`Err(ThreadChannelError)`. -/
theorem panic_containment_witness :
    ((ThreadOutcome.finished (.ok ()) : ThreadOutcome Unit) = .panicked ∨
      (ThreadOutcome.panicked : ThreadOutcome Unit) = .panicked ∨
      (ThreadOutcome.finished (.error .DBError) : ThreadOutcome Unit) = .panicked) ∧
    (∀ e ∈ stage_errors (handle_thread_join (.finished (.ok ())))
        (handle_thread_join (α := Unit) .panicked)
        (handle_thread_join (.finished (.error .DBError))), 2 ≤ errorRank e) ∧
    join_and_resolve (.finished (.ok ())) .panicked (.finished (.error .DBError)) =
      .error .ThreadChannelError :=
  ⟨Or.inr (Or.inl rfl), by decide,
    panic_containment _ _ _ (Or.inr (Or.inl rfl)) (by decide)⟩

/-- **C9.** For both mock pipeline stages (download and parse): a failed
inbound channel receive (peer end dropped) makes the stage return
`Err(CoordinatorClosed)`; a failed outbound send (peer end dropped)
makes it return `Err(CoordinatorClosed)` — in both cases not
`ThreadChannelError` and not a panic (every case returns a value); and
after forwarding the `None` end-of-stream marker successfully the stage
returns `Ok(())`. -/
theorem mock_stage_channel_protocol
    (blocks : Nat → Option MockIdx.MockBlock) (fh : Option Nat) (sendOk : Nat → Bool)
    (restD : List (MockIdx.RecvEvent MockIdx.BurnchainHeaderIPC))
    (restP : List (MockIdx.RecvEvent MockIdx.BurnchainBlockIPC))
    (k : Nat) (hipc : MockIdx.BurnchainHeaderIPC) (bipc : MockIdx.BurnchainBlockIPC)
    (b : MockIdx.MockBlock)
    (hsend : sendOk k = false)
    (hfail : fh ≠ some hipc.block_header.block_height)
    (hblk : blocks hipc.block_header.block_height = some b) :
    (MockIdx.download_blocks blocks fh sendOk (.closed :: restD) k =
      ([], some (.error .CoordinatorClosed))) ∧
    (MockIdx.parse_blocks sendOk (.closed :: restP) k =
      ([], some (.error .CoordinatorClosed))) ∧
    (MockIdx.download_blocks blocks fh sendOk (.msg hipc :: restD) k =
      ([], some (.error .CoordinatorClosed))) ∧
    (MockIdx.download_blocks blocks fh sendOk (.eos :: restD) k =
      ([], some (.error .CoordinatorClosed))) ∧
    (MockIdx.parse_blocks sendOk (.msg bipc :: restP) k =
      ([], some (.error .CoordinatorClosed))) ∧
    (MockIdx.parse_blocks sendOk (.eos :: restP) k =
      ([], some (.error .CoordinatorClosed))) ∧
    (MockIdx.burnchain_error.CoordinatorClosed ≠ MockIdx.burnchain_error.ThreadChannelError) ∧
    (∀ k2, sendOk k2 = true →
      MockIdx.download_blocks blocks fh sendOk (.eos :: restD) k2 =
        ([none], some (.ok ())) ∧
      MockIdx.parse_blocks sendOk (.eos :: restP) k2 = ([none], some (.ok ()))) := by
  refine ⟨rfl, rfl, ?_, ?_, ?_, ?_, by decide, ?_⟩
  · simp [MockIdx.download_blocks, hfail, hblk, hsend]
  · simp [MockIdx.download_blocks, hsend]
  · simp [MockIdx.parse_blocks, hsend]
  · simp [MockIdx.parse_blocks, hsend]
  · intro k2 h2
    exact ⟨by simp [MockIdx.download_blocks, h2], by simp [MockIdx.parse_blocks, h2]⟩

/-- Witness for `mock_stage_channel_protocol`: the block map with blocks
at heights 0 and 2, no failure height, and an outbound peer that accepts
only sends with index at least 1, observed at send index 0 with the
header of height 0. -/
theorem mock_stage_channel_protocol_witness :
    ((fun i => decide (1 ≤ i)) 0 = false) ∧
    ((none : Option Nat) ≠
      some (MockIdx.BurnchainHeaderIPC.mk
        (MockIdx.MockBlock.new 0 0).to_header).block_header.block_height) ∧
    (MockIdx.gapBlocks (MockIdx.BurnchainHeaderIPC.mk
        (MockIdx.MockBlock.new 0 0).to_header).block_header.block_height =
      some (MockIdx.MockBlock.new 0 0)) ∧
    ((MockIdx.download_blocks MockIdx.gapBlocks none (fun i => decide (1 ≤ i))
        (.closed :: []) 0 = ([], some (.error .CoordinatorClosed))) ∧
      (MockIdx.parse_blocks (fun i => decide (1 ≤ i)) (.closed :: []) 0 =
        ([], some (.error .CoordinatorClosed))) ∧
      (MockIdx.download_blocks MockIdx.gapBlocks none (fun i => decide (1 ≤ i))
        (.msg (MockIdx.BurnchainHeaderIPC.mk (MockIdx.MockBlock.new 0 0).to_header) :: []) 0 =
        ([], some (.error .CoordinatorClosed))) ∧
      (MockIdx.download_blocks MockIdx.gapBlocks none (fun i => decide (1 ≤ i))
        (.eos :: []) 0 = ([], some (.error .CoordinatorClosed))) ∧
      (MockIdx.parse_blocks (fun i => decide (1 ≤ i))
        (.msg (MockIdx.BurnchainBlockIPC.mk
          (MockIdx.MockBlock.new 0 0).to_block (MockIdx.MockBlock.new 0 0).to_header) :: [])
        0 = ([], some (.error .CoordinatorClosed))) ∧
      (MockIdx.parse_blocks (fun i => decide (1 ≤ i)) (.eos :: []) 0 =
        ([], some (.error .CoordinatorClosed))) ∧
      (MockIdx.burnchain_error.CoordinatorClosed ≠
        MockIdx.burnchain_error.ThreadChannelError) ∧
      (∀ k2, (fun i => decide (1 ≤ i)) k2 = true →
        MockIdx.download_blocks MockIdx.gapBlocks none (fun i => decide (1 ≤ i))
          (.eos :: []) k2 = ([none], some (.ok ())) ∧
        MockIdx.parse_blocks (fun i => decide (1 ≤ i)) (.eos :: []) k2 =
          ([none], some (.ok ())))) :=
  ⟨rfl, by decide, rfl,
    mock_stage_channel_protocol MockIdx.gapBlocks none (fun i => decide (1 ≤ i)) [] [] 0
      (MockIdx.BurnchainHeaderIPC.mk (MockIdx.MockBlock.new 0 0).to_header)
      (MockIdx.BurnchainBlockIPC.mk (MockIdx.MockBlock.new 0 0).to_block
        (MockIdx.MockBlock.new 0 0).to_header)
      (MockIdx.MockBlock.new 0 0) rfl (by decide) rfl⟩

/-- **C10.** A header whose height has no block in the downloader's map
(and is not the configured failure height) is skipped: the stage sends
nothing downstream for it and continues with the remaining headers,
returning no error on its account; concretely, for headers at heights
0, 1, 2 with no block at height 1, the stage succeeds and sends two
blocks plus the end marker for three headers. -/
theorem mock_download_skips_missing
    (blocks : Nat → Option MockIdx.MockBlock) (fh : Option Nat) (sendOk : Nat → Bool)
    (rest : List (MockIdx.RecvEvent MockIdx.BurnchainHeaderIPC)) (k : Nat)
    (hipc : MockIdx.BurnchainHeaderIPC)
    (hmiss : blocks hipc.block_header.block_height = none)
    (hfail : fh ≠ some hipc.block_header.block_height) :
    MockIdx.download_blocks blocks fh sendOk (.msg hipc :: rest) k =
      MockIdx.download_blocks blocks fh sendOk rest k ∧
    MockIdx.download_blocks MockIdx.gapBlocks none (fun _ => true) MockIdx.gapTrace 0 =
      ([some ⟨(MockIdx.MockBlock.new 0 0).to_block, (MockIdx.MockBlock.new 0 0).to_header⟩,
        some ⟨(MockIdx.MockBlock.new 2 2).to_block, (MockIdx.MockBlock.new 2 2).to_header⟩,
        none], some (.ok ())) := by
  constructor
  · simp [MockIdx.download_blocks, hmiss, hfail]
  · rfl

/-- Witness for `mock_download_skips_missing`: the header at height 1
has no block in the map with blocks at heights 0 and 2 only. -/
theorem mock_download_skips_missing_witness :
    (MockIdx.gapBlocks (MockIdx.BurnchainHeaderIPC.mk
      ⟨1, 1, 0, 0, 0⟩).block_header.block_height = none) ∧
    ((none : Option Nat) ≠ some (MockIdx.BurnchainHeaderIPC.mk
      ⟨1, 1, 0, 0, 0⟩).block_header.block_height) ∧
    (MockIdx.download_blocks MockIdx.gapBlocks none (fun _ => true)
        (.msg (MockIdx.BurnchainHeaderIPC.mk ⟨1, 1, 0, 0, 0⟩) :: [.eos]) 0 =
      MockIdx.download_blocks MockIdx.gapBlocks none (fun _ => true) [.eos] 0 ∧
      MockIdx.download_blocks MockIdx.gapBlocks none (fun _ => true) MockIdx.gapTrace 0 =
        ([some ⟨(MockIdx.MockBlock.new 0 0).to_block, (MockIdx.MockBlock.new 0 0).to_header⟩,
          some ⟨(MockIdx.MockBlock.new 2 2).to_block,
            (MockIdx.MockBlock.new 2 2).to_header⟩,
          none], some (.ok ()))) :=
  ⟨rfl, by decide,
    mock_download_skips_missing MockIdx.gapBlocks none (fun _ => true) [.eos] 0
      (MockIdx.BurnchainHeaderIPC.mk ⟨1, 1, 0, 0, 0⟩) rfl (by decide)⟩
